import Mathlib

/-
Verification of the fastapi-product-seller service.

The service (src/product) is a CRUD catalog over two relational tables,
`products` and `sellers` (src/product/models.py), with request/response
shapes in src/product/schemas.py and handlers in src/product/routers.
We embed the handlers as pure state-passing functions over an explicit
store, and the HTTP response bodies (after FastAPI `response_model`
filtering) as a small JSON value type.
-/

namespace ProductApp

/-- JSON values, as they appear in serialized HTTP response bodies. -/
inductive Json where
  | str : String → Json
  | int : Int → Json
  | obj : List (String × Json) → Json
deriving Repr

/-- Field lookup in a serialized JSON object body (none on non-objects). -/
def Json.lookupField : Json → String → Option Json
  | .obj fs, k => fs.lookup k
  | .str _, _ => none
  | .int _, _ => none

/-- A row of the `products` table (models.Product): columns id (integer
primary key), name, description (strings), price (integer), seller_id
(integer FK to sellers.id).  The non-key columns are declared without
NOT NULL, and the update path can store NULL explicitly, so they are
`Option`; seller_id is always written as a concrete integer by the one
creation path (`add` assigns 1) and no path ever nulls it. -/
structure ProductRow where
  id : Int
  name : Option String
  description : Option String
  price : Option Int
  seller_id : Int
deriving DecidableEq, Repr

/-- A row of the `sellers` table (models.Seller): id (integer primary key),
username, email, password (the bcrypt hash).  The single creation path
(`create_seller`) always writes all three strings and no path updates or
nulls them, so they are plain strings here. -/
structure SellerRow where
  id : Int
  username : String
  email : String
  password : String
deriving DecidableEq, Repr

/-- The relational store: both tables, plus the engine's autoincrement
counters for the integer primary keys (fresh-id assignment on insert,
modelled as monotone counters). -/
structure DB where
  products : List ProductRow
  sellers : List SellerRow
  nextProductId : Int
  nextSellerId : Int
deriving DecidableEq, Repr

/-- The store auto-created at process start: both tables empty,
autoincrement ids starting at 1. -/
def DB.empty : DB := { products := [], sellers := [], nextProductId := 1, nextSellerId := 1 }

/-- db.query(models.Product).filter(models.Product.id == id).first() -/
def DB.findProduct (db : DB) (id : Int) : Option ProductRow :=
  db.products.find? (fun p => p.id == id)

/-- db.query(models.Seller).filter(models.Seller.username == u).first() -/
def DB.findSellerByUsername (db : DB) (u : String) : Option SellerRow :=
  db.sellers.find? (fun s => s.username == u)

/-- Well-formedness maintained by the relational engine: every stored id is
below the autoincrement counter (inserts get fresh ids) and primary keys
are unique in each table. -/
def DB.WF (db : DB) : Prop :=
  (∀ p ∈ db.products, p.id < db.nextProductId) ∧
  (db.products.map (fun p => p.id)).Nodup ∧
  (∀ s ∈ db.sellers, s.id < db.nextSellerId) ∧
  (db.sellers.map (fun s => s.id)).Nodup

instance (db : DB) : Decidable db.WF := by
  unfold DB.WF; infer_instance

/-- schemas.Product: the create-product request body. -/
structure ProductCreate where
  name : String
  price : Int
  description : String
deriving DecidableEq, Repr

/-- schemas.ProductUpdate: all three fields Optional with default None.
The outer `Option` is pydantic's fields-set tracking (`exclude_unset`):
`none` means the field was absent from the payload, `some v` means it was
explicitly present with value `v` (where `v = none` is an explicit null). -/
structure ProductUpdate where
  name : Option (Option String)
  price : Option (Option Int)
  description : Option (Option String)
deriving DecidableEq, Repr

/-- schemas.Seller: the create-seller request body. -/
structure SellerCreate where
  username : String
  email : String
  password : String
deriving DecidableEq, Repr

/-- Modelled from the spec: schemas.Login, the login request body
{username, password} (the schema class is referenced by routers/login.py
but its declaration is not among the source files; the spec's interface
table gives its shape). -/
structure Login where
  username : String
  password : String
deriving DecidableEq, Repr

/-- Modelled from the spec: schemas.LoginResponse, the login success body
{access_token, token_type} (the schema class is referenced by
routers/login.py but its declaration is not among the source files; the
spec's interface table gives its shape). -/
structure LoginResponse where
  access_token : String
  token_type : String
deriving DecidableEq, Repr

/-- An HTTPException raised by a handler: status code and detail. -/
structure HTTPError where
  status_code : Nat
  detail : String
deriving DecidableEq, Repr

/-- GET /products handler body (routers/product.py `products`):
db.query(models.Product).all(). -/
def products (db : DB) : List ProductRow :=
  db.products

/-- GET /products/{id} handler (routers/product.py `get_product`):
return the first row with this id, else raise 404. -/
def get_product (id : Int) (db : DB) : Except HTTPError ProductRow :=
  match db.findProduct id with
  | some product => .ok product
  | none => .error { status_code := 404, detail := "Product not found" }

/-- DELETE /product/{id} handler (routers/product.py `delete_product`):
if a row with this id exists, delete that row (the first match) and
return the success message, else raise 404. -/
def delete_product (id : Int) (db : DB) : Except HTTPError (String × DB) :=
  match db.findProduct id with
  | some _ =>
      .ok ("Product deleted successfully",
        { db with products := db.products.eraseP (fun p => p.id == id) })
  | none => .error { status_code := 404, detail := "Product not found" }

/-- The setattr loop of `update_product`: for each key present in
request.model_dump(exclude_unset=True), overwrite that attribute of the
row with the supplied value (which may be an explicit null). -/
def applyUpdate (req : ProductUpdate) (p : ProductRow) : ProductRow :=
  { p with
    name := (match req.name with | some v => v | none => p.name),
    price := (match req.price with | some v => v | none => p.price),
    description := (match req.description with | some v => v | none => p.description) }

/-- In-place mutation of the queried row followed by commit: the first
row matching the id is replaced by its updated version, the rest of the
table is untouched. -/
def updateFirst (id : Int) (f : ProductRow → ProductRow) : List ProductRow → List ProductRow
  | [] => []
  | p :: rest => if p.id == id then f p :: rest else p :: updateFirst id f rest

/-- PUT /product/{id} handler (routers/product.py `update_product`):
404 if no row with this id; otherwise overwrite exactly the fields
present in the payload on that row, commit, and return the row. -/
def update_product (id : Int) (req : ProductUpdate) (db : DB) :
    Except HTTPError (ProductRow × DB) :=
  match db.findProduct id with
  | none => .error { status_code := 404, detail := "Product not found" }
  | some product =>
      .ok (applyUpdate req product,
        { db with products := updateFirst id (applyUpdate req) db.products })

/-- POST /add_product response body shape: {message, product}. -/
structure AddResponse where
  message : String
  product : ProductRow
deriving DecidableEq, Repr

/-- POST /add_product handler (routers/product.py `add`): build a new
Product row from the request with seller_id hardcoded to 1, insert and
commit it (the engine assigns the fresh primary key), refresh, and
return the message together with the row. -/
def add (req : ProductCreate) (db : DB) : AddResponse × DB :=
  let new_product : ProductRow :=
    { id := db.nextProductId
      name := some req.name
      description := some req.description
      price := some req.price
      seller_id := 1 }
  ({ message := "Product added successfully", product := new_product },
   { db with
      products := db.products ++ [new_product]
      nextProductId := db.nextProductId + 1 })

/-- POST /seller handler (routers/seller.py `create_seller`): hash the
password (bcrypt with a random salt, abstracted as an arbitrary function
`hash`), insert and commit the new Seller row, refresh, and return it.
The HTTP body is this row filtered through DisplaySeller (below). -/
def create_seller (hash : String → String) (req : SellerCreate) (db : DB) :
    SellerRow × DB :=
  let new_seller : SellerRow :=
    { id := db.nextSellerId
      username := req.username
      email := req.email
      password := hash req.password }
  (new_seller,
   { db with
      sellers := db.sellers ++ [new_seller]
      nextSellerId := db.nextSellerId + 1 })

/-- POST /api/v1/login handler (routers/login.py `login`), parameterized
by the bcrypt verification function pwd_context.verify (plaintext, stored
hash → bool).  Look up the Seller by username: absent → 404 "User not
found"; present but verification fails → 401 "Invalid credentials";
otherwise the hardcoded success body.  The store is passed through
unchanged: the handler performs no insert, update or delete. -/
def login (verify : String → String → Bool) (req : Login) (db : DB) :
    Except HTTPError LoginResponse × DB :=
  match db.findSellerByUsername req.username with
  | none => (.error { status_code := 404, detail := "User not found" }, db)
  | some user =>
      if verify req.password user.password then
        (.ok { access_token := "access_token", token_type := "bearer" }, db)
      else
        (.error { status_code := 401, detail := "Invalid credentials" }, db)

/-- Serialization of a Seller row through response_model=DisplaySeller
(schemas.DisplaySeller): exactly the fields username and email. -/
def sellerToDisplayJson (s : SellerRow) : Json :=
  .obj [("username", .str s.username), ("email", .str s.email)]

/-- Serialization of a Product row through response_model=DisplayProduct
(schemas.DisplayProduct): exactly the fields name, description, and the
nested seller object — price is not part of the schema.  name and
description are required strings and the required seller is resolved via
the seller_id foreign key, so serialization fails (none) when any of
them is missing. -/
def productToDisplayJson (db : DB) (p : ProductRow) : Option Json :=
  match p.name, p.description, db.sellers.find? (fun s => s.id == p.seller_id) with
  | some n, some d, some s =>
      some (.obj [("name", .str n), ("description", .str d),
                  ("seller", sellerToDisplayJson s)])
  | _, _, _ => none

/-- The HTTP body of GET /products/{id}: the handler result filtered
through response_model=DisplayProduct (404 passes through; `.ok none`
is a serialization failure). -/
def get_product_response (id : Int) (db : DB) : Except HTTPError (Option Json) :=
  (get_product id db).map (fun p => productToDisplayJson db p)

/-- The HTTP body of POST /seller: the created row filtered through
response_model=DisplaySeller. -/
def create_seller_response (hash : String → String) (req : SellerCreate) (db : DB) : Json :=
  sellerToDisplayJson (create_seller hash req db).1

/-- Creating N products in sequence (folding POST /add_product). -/
def addAll (reqs : List ProductCreate) (db : DB) : DB :=
  reqs.foldl (fun d r => (add r d).2) db

/-- A concrete store holding the one seller (id 1) that product creation
points at, used to instantiate the general theorems. -/
def sellerOneDB : DB :=
  { products := []
    sellers := [{ id := 1, username := "alice", email := "alice@example.com",
                  password := "bcrypt$hash" }]
    nextProductId := 1
    nextSellerId := 2 }

/- ## Supporting lemmas -/

theorem addAll_products_length (reqs : List ProductCreate) :
    ∀ db : DB, ((addAll reqs db).products).length = db.products.length + reqs.length := by
  induction reqs with
  | nil => intro db; simp [addAll]
  | cons r rs ih =>
      intro db
      have h1 : addAll (r :: rs) db = addAll rs (add r db).2 := rfl
      rw [h1, ih]
      simp [add]
      omega

/-- A concrete product row: id 1, name apple, description fresh,
price 5, seller 1. -/
def demoRow : ProductRow :=
  { id := 1, name := some "apple", description := some "fresh",
    price := some 5, seller_id := 1 }

/-- A concrete store with one product (id 1) owned by seller 1. -/
def demoDB : DB :=
  { products := [demoRow]
    sellers := sellerOneDB.sellers
    nextProductId := 2
    nextSellerId := 2 }

theorem find?_eraseP_self (l : List ProductRow) (id : Int)
    (hN : (l.map (fun p => p.id)).Nodup) :
    (l.eraseP (fun p => p.id == id)).find? (fun p => p.id == id) = none := by
  induction l with
  | nil => simp
  | cons q rest ih =>
      rw [List.map_cons, List.nodup_cons] at hN
      by_cases hq : q.id = id
      · rw [List.eraseP_cons_of_pos (by simp [hq])]
        rw [List.find?_eq_none]
        intro x hx
        simp only [beq_iff_eq]
        intro hxid
        exact hN.1 (List.mem_map.mpr ⟨x, hx, by rw [hxid, hq]⟩)
      · rw [List.eraseP_cons_of_neg (by simp [hq])]
        rw [List.find?_cons_of_neg _ (by simp [hq])]
        exact ih hN.2

theorem updateFirst_length (id : Int) (f : ProductRow → ProductRow) :
    ∀ l : List ProductRow, (updateFirst id f l).length = l.length := by
  intro l
  induction l with
  | nil => rfl
  | cons q rest ih =>
      unfold updateFirst
      split <;> simp [ih]

theorem updateFirst_getElem (id : Int) (f : ProductRow → ProductRow) (p : ProductRow) :
    ∀ (l : List ProductRow), (l.map (fun q => q.id)).Nodup →
      l.find? (fun q => q.id == id) = some p →
      ∀ (i : Nat) (h : i < l.length) (h' : i < (updateFirst id f l).length),
        (updateFirst id f l)[i] = if (l[i]).id = id then f p else l[i] := by
  intro l
  induction l with
  | nil => intro _ _ i h; exact absurd h (by simp)
  | cons q rest ih =>
      intro hN hfind i h h'
      rw [List.map_cons, List.nodup_cons] at hN
      by_cases hq : q.id = id
      · rw [List.find?_cons_of_pos _ (by simp [hq])] at hfind
        have hqp : q = p := Option.some.inj hfind
        have hup : updateFirst id f (q :: rest) = f q :: rest := by
          simp [updateFirst, hq]
        cases i with
        | zero =>
            simp only [hup, List.getElem_cons_zero]
            rw [if_pos hq, hqp]
        | succ n =>
            have hn : n < rest.length := by simpa using h
            have hrest : ¬ (rest[n]).id = id := by
              intro hcon
              exact hN.1 (List.mem_map.mpr ⟨rest[n], List.getElem_mem hn, by rw [hcon, hq]⟩)
            simp only [hup, List.getElem_cons_succ]
            rw [if_neg hrest]
      · rw [List.find?_cons_of_neg _ (by simp [hq])] at hfind
        have hup : updateFirst id f (q :: rest) = q :: updateFirst id f rest := by
          simp [updateFirst, hq]
        cases i with
        | zero => simp [hup, hq]
        | succ n =>
            have hn : n < rest.length := by simpa using h
            have hn' : n < (updateFirst id f rest).length := by
              rw [updateFirst_length]; exact hn
            simp only [hup, List.getElem_cons_succ]
            exact ih hN.2 hfind n hn hn'

/- ## Claim theorems -/

/-- C4: the POST /seller response body is exactly the object with the
username and email fields — the plaintext password and its hash are
absent — and two create-seller runs that agree on username and email
(but may differ in password, hash function, and store) produce identical
response bodies. -/
theorem create_seller_password_noninterference
    (hash₁ hash₂ : String → String) (req₁ req₂ : SellerCreate) (db₁ db₂ : DB)
    (hu : req₁.username = req₂.username) (he : req₁.email = req₂.email) :
    create_seller_response hash₁ req₁ db₁ =
        .obj [("username", .str req₁.username), ("email", .str req₁.email)] ∧
    create_seller_response hash₁ req₁ db₁ = create_seller_response hash₂ req₂ db₂ := by
  constructor
  · rfl
  · simp only [create_seller_response, create_seller, sellerToDisplayJson, hu, he]

/-- C4 witness: two concrete runs differing in password and hashing
scheme agree on the response, which lists only username and email. -/
theorem create_seller_password_noninterference_witness :
    create_seller_response (fun s => s ++ "#")
        { username := "bob", email := "bob@example.com", password := "secret123" } DB.empty =
      .obj [("username", .str "bob"), ("email", .str "bob@example.com")] ∧
    create_seller_response (fun s => s ++ "#")
        { username := "bob", email := "bob@example.com", password := "secret123" } DB.empty =
      create_seller_response (fun _ => "Z")
        { username := "bob", email := "bob@example.com", password := "hunter2" } sellerOneDB :=
  create_seller_password_noninterference (fun s => s ++ "#") (fun _ => "Z")
    { username := "bob", email := "bob@example.com", password := "secret123" }
    { username := "bob", email := "bob@example.com", password := "hunter2" }
    DB.empty sellerOneDB rfl rfl

/-- C5: for every well-formed store and product id present in it,
deleting the product succeeds with the success message, and fetching the
same id afterwards yields 404 "Product not found". -/
theorem delete_then_get_not_found (id : Int) (db : DB) (hwf : db.WF)
    (hp : (db.findProduct id).isSome) :
    ∃ db', delete_product id db = .ok ("Product deleted successfully", db') ∧
      get_product id db' = .error { status_code := 404, detail := "Product not found" } := by
  obtain ⟨p, hp'⟩ := Option.isSome_iff_exists.mp hp
  have hdel : delete_product id db =
      .ok ("Product deleted successfully",
        { db with products := db.products.eraseP (fun q => q.id == id) }) := by
    unfold delete_product
    rw [hp']
  refine ⟨_, hdel, ?_⟩
  have hnone := find?_eraseP_self db.products id hwf.2.1
  simp [get_product, DB.findProduct, hnone]

/-- C2 (amended): creating a product and fetching it by the returned id
(over a well-formed store holding a seller with id 1, which the
DisplayProduct serialization requires) yields a response with the same
name and the same description; the response carries no price field at
all (DisplayProduct omits price), though the stored row does retain the
submitted price. -/
theorem add_then_get_same_name_description (req : ProductCreate) (db : DB)
    (hwf : db.WF) (hs : ∃ s ∈ db.sellers, s.id = 1) :
    ∃ j, get_product_response (add req db).1.product.id (add req db).2 = .ok (some j) ∧
      j.lookupField "name" = some (.str req.name) ∧
      j.lookupField "description" = some (.str req.description) ∧
      j.lookupField "price" = none ∧
      (add req db).1.product.price = some req.price := by
  have hsfind : (db.sellers.find? (fun t => t.id == (1 : Int))).isSome := by
    rw [List.find?_isSome]
    obtain ⟨s, hs1, hs2⟩ := hs
    exact ⟨s, hs1, by simp [hs2]⟩
  obtain ⟨t, ht⟩ := Option.isSome_iff_exists.mp hsfind
  have hfresh : db.products.find? (fun p => p.id == db.nextProductId) = none := by
    rw [List.find?_eq_none]
    intro x hx
    have := hwf.1 x hx
    simp only [beq_iff_eq]
    omega
  refine ⟨.obj [("name", .str req.name), ("description", .str req.description),
                ("seller", sellerToDisplayJson t)], ?_, ?_, ?_, ?_, rfl⟩
  · simp [get_product_response, get_product, DB.findProduct, add,
      List.find?_append, hfresh, Except.map, productToDisplayJson, ht]
  · rfl
  · simp [Json.lookupField, List.lookup]
  · simp [Json.lookupField, List.lookup, sellerToDisplayJson]

/-- C2 witness: creating {apple, 5, fresh} in the concrete seller store
and fetching the returned id yields a body with name and description but
no price field, while the stored row keeps price 5. -/
theorem add_then_get_same_name_description_witness :
    DB.WF sellerOneDB ∧ (∃ s ∈ sellerOneDB.sellers, s.id = 1) ∧
    ∃ j, get_product_response
          (add { name := "apple", price := 5, description := "fresh" } sellerOneDB).1.product.id
          (add { name := "apple", price := 5, description := "fresh" } sellerOneDB).2 =
        .ok (some j) ∧
      j.lookupField "name" = some (.str "apple") ∧
      j.lookupField "description" = some (.str "fresh") ∧
      j.lookupField "price" = none ∧
      (add { name := "apple", price := 5, description := "fresh" } sellerOneDB).1.product.price =
        some 5 :=
  ⟨by decide, by decide,
    add_then_get_same_name_description
      { name := "apple", price := 5, description := "fresh" } sellerOneDB
      (by decide) (by decide)⟩

/-- C2 counterexample: as stated the claim is false — after creating
{apple, 5, fresh}, fetching the returned id gives a response whose body
has no price field (so it cannot contain the submitted price 5). -/
theorem add_then_get_price_counterexample :
    ¬ (∃ j, get_product_response
          (add { name := "apple", price := 5, description := "fresh" } sellerOneDB).1.product.id
          (add { name := "apple", price := 5, description := "fresh" } sellerOneDB).2 =
        .ok (some j) ∧
      j.lookupField "name" = some (.str "apple") ∧
      j.lookupField "description" = some (.str "fresh") ∧
      j.lookupField "price" = some (.int 5)) := by
  rintro ⟨j, hj, -, -, hp⟩
  rw [show get_product_response
        (add { name := "apple", price := 5, description := "fresh" } sellerOneDB).1.product.id
        (add { name := "apple", price := 5, description := "fresh" } sellerOneDB).2 =
      .ok (some (.obj [("name", .str "apple"), ("description", .str "fresh"),
        ("seller", .obj [("username", .str "alice"),
                         ("email", .str "alice@example.com")])])) from rfl] at hj
  simp only [Except.ok.injEq, Option.some.injEq] at hj
  rw [← hj] at hp
  simp [Json.lookupField, List.lookup] at hp

/-- C3: updating an existing product with a partial payload succeeds and:
every field present in the payload ends up equal to the supplied value,
every absent field (including id and seller_id, which the payload can
never carry) keeps its prior value, the sellers table is untouched, and
every product row other than the updated one is unchanged (positionally,
over a well-formed store). -/
theorem update_product_partial_frame (id : Int) (req : ProductUpdate) (db : DB)
    (p : ProductRow) (hwf : db.WF) (hp : db.findProduct id = some p) :
    ∃ p' db', update_product id req db = .ok (p', db') ∧
      (∀ v, req.name = some v → p'.name = v) ∧
      (req.name = none → p'.name = p.name) ∧
      (∀ v, req.price = some v → p'.price = v) ∧
      (req.price = none → p'.price = p.price) ∧
      (∀ v, req.description = some v → p'.description = v) ∧
      (req.description = none → p'.description = p.description) ∧
      p'.id = p.id ∧ p'.seller_id = p.seller_id ∧
      db'.sellers = db.sellers ∧
      db'.products.length = db.products.length ∧
      (∀ (i : Nat) (h : i < db.products.length) (h' : i < db'.products.length),
        db'.products[i] = if (db.products[i]).id = id then p' else db.products[i]) := by
  have hp' : db.products.find? (fun q => q.id == id) = some p := hp
  refine ⟨applyUpdate req p,
    { db with products := updateFirst id (applyUpdate req) db.products },
    ?_, ?_, ?_, ?_, ?_, ?_, ?_, rfl, rfl, rfl, updateFirst_length id _ db.products, ?_⟩
  · unfold update_product
    rw [hp]
  · intro v hv; simp [applyUpdate, hv]
  · intro hv; simp [applyUpdate, hv]
  · intro v hv; simp [applyUpdate, hv]
  · intro hv; simp [applyUpdate, hv]
  · intro v hv; simp [applyUpdate, hv]
  · intro hv; simp [applyUpdate, hv]
  · intro i h h'
    exact updateFirst_getElem id (applyUpdate req) p db.products hwf.2.1 hp' i h h'

/-- C3 witness: a concrete partial update of product 1 (name and
description supplied, price absent) in the concrete store. -/
theorem update_product_partial_frame_witness :
    DB.WF demoDB ∧
    demoDB.findProduct 1 = some demoRow ∧
    ∃ p' db', update_product 1
        { name := some (some "renamed"), price := none, description := some (some "riper") }
        demoDB = .ok (p', db') ∧
      (∀ v, (some (some "renamed") : Option (Option String)) = some v → p'.name = v) ∧
      ((some (some "renamed") : Option (Option String)) = none → p'.name = some "apple") ∧
      (∀ v, (none : Option (Option Int)) = some v → p'.price = v) ∧
      ((none : Option (Option Int)) = none → p'.price = some 5) ∧
      (∀ v, (some (some "riper") : Option (Option String)) = some v → p'.description = v) ∧
      ((some (some "riper") : Option (Option String)) = none → p'.description = some "fresh") ∧
      p'.id = 1 ∧ p'.seller_id = 1 ∧
      db'.sellers = demoDB.sellers ∧
      db'.products.length = demoDB.products.length ∧
      (∀ (i : Nat) (h : i < demoDB.products.length) (h' : i < db'.products.length),
        db'.products[i] = if (demoDB.products[i]).id = 1 then p' else demoDB.products[i]) :=
  ⟨by decide, by decide,
    update_product_partial_frame 1
      { name := some (some "renamed"), price := none, description := some (some "riper") }
      demoDB demoRow (by decide) (by decide)⟩

/-- C10: a field explicitly present in the update payload with value
null is overwritten to null in the stored row — "omitted" means absent
from the payload, not merely null-valued. -/
theorem update_explicit_null_overwrites (id : Int) (req : ProductUpdate) (db : DB)
    (p : ProductRow) (hp : db.findProduct id = some p) :
    ∃ p' db', update_product id req db = .ok (p', db') ∧
      (req.name = some none → p'.name = none) ∧
      (req.price = some none → p'.price = none) ∧
      (req.description = some none → p'.description = none) := by
  refine ⟨applyUpdate req p,
    { db with products := updateFirst id (applyUpdate req) db.products },
    ?_, ?_, ?_, ?_⟩
  · unfold update_product
    rw [hp]
  · intro hv; simp [applyUpdate, hv]
  · intro hv; simp [applyUpdate, hv]
  · intro hv; simp [applyUpdate, hv]

/-- C10 witness: an update of product 1 whose payload carries all three
fields explicitly null nulls them out, although the prior values were
all non-null. -/
theorem update_explicit_null_overwrites_witness :
    demoDB.findProduct 1 = some demoRow ∧
    ∃ p' db', update_product 1
        { name := some none, price := some none, description := some none }
        demoDB = .ok (p', db') ∧
      ((some none : Option (Option String)) = some none → p'.name = none) ∧
      ((some none : Option (Option Int)) = some none → p'.price = none) ∧
      ((some none : Option (Option String)) = some none → p'.description = none) :=
  ⟨by decide,
    update_explicit_null_overwrites 1
      { name := some none, price := some none, description := some none }
      demoDB demoRow (by decide)⟩

/-- C5 witness: deleting product 1 from the concrete store then fetching
id 1 yields 404. -/
theorem delete_then_get_not_found_witness :
    DB.WF demoDB ∧ (demoDB.findProduct 1).isSome ∧
    ∃ db', delete_product 1 demoDB = .ok ("Product deleted successfully", db') ∧
      get_product 1 db' = .error { status_code := 404, detail := "Product not found" } :=
  ⟨by decide, by decide, delete_then_get_not_found 1 demoDB (by decide) (by decide)⟩

/-- C6: every product row created by the add operation has seller_id
equal to 1, regardless of the request payload; the new row is exactly
what gets appended to the products table. -/
theorem add_hardcodes_seller_id (req : ProductCreate) (db : DB) :
    ((add req db).1.product.seller_id = 1) ∧
    ((add req db).2.products = db.products ++ [(add req db).1.product]) :=
  ⟨rfl, rfl⟩

/-- C7: starting from the empty store, creating any sequence of N
products and then listing products returns exactly N entries. -/
theorem listing_after_creates (reqs : List ProductCreate) :
    (products (addAll reqs DB.empty)).length = reqs.length := by
  have h := addAll_products_length reqs DB.empty
  simpa [products, DB.empty] using h

/-- C9: the login operation leaves the store unchanged on every outcome:
no Seller or Product row is created, modified, or deleted. -/
theorem login_leaves_store_unchanged (verify : String → String → Bool)
    (req : Login) (db : DB) :
    (login verify req db).2 = db := by
  unfold login
  cases h : db.findSellerByUsername req.username with
  | none => rfl
  | some u => dsimp only; split <;> rfl

/-- C8: whenever login succeeds, the success body is the fixed constant
{access_token := "access_token", token_type := "bearer"}, identical for
every user, every store, and every verification function — a hardcoded
placeholder, not an issued per-session token. -/
theorem login_success_is_placeholder (verify : String → String → Bool)
    (req : Login) (db : DB) (resp : LoginResponse)
    (h : (login verify req db).1 = .ok resp) :
    resp = { access_token := "access_token", token_type := "bearer" } := by
  unfold login at h
  cases hfind : db.findSellerByUsername req.username with
  | none => rw [hfind] at h; simp at h
  | some u =>
      rw [hfind] at h
      dsimp only at h
      split at h
      · simpa using h.symm
      · simp at h

/-- C8 witness: a concrete successful login returns the placeholder. -/
theorem login_success_is_placeholder_witness :
    ({ access_token := "access_token", token_type := "bearer" } : LoginResponse) =
      { access_token := "access_token", token_type := "bearer" } :=
  login_success_is_placeholder (fun _ _ => true) { username := "alice", password := "pw" }
    sellerOneDB { access_token := "access_token", token_type := "bearer" } rfl

/-- C1: for every login request, the outcome is 404 "User not found" iff
no seller row has the requested username; 401 "Invalid credentials" iff
the (first) seller row with that username exists but hash verification
of the supplied plaintext fails; success iff verification succeeds; and
these three are the only possible outcomes. -/
theorem login_outcome_trichotomy (verify : String → String → Bool)
    (req : Login) (db : DB) :
    ((login verify req db).1 = .error { status_code := 404, detail := "User not found" } ↔
        db.findSellerByUsername req.username = none) ∧
    ((login verify req db).1 = .error { status_code := 401, detail := "Invalid credentials" } ↔
        ∃ u, db.findSellerByUsername req.username = some u ∧
          verify req.password u.password = false) ∧
    ((login verify req db).1 = .ok { access_token := "access_token", token_type := "bearer" } ↔
        ∃ u, db.findSellerByUsername req.username = some u ∧
          verify req.password u.password = true) ∧
    ((login verify req db).1 = .error { status_code := 404, detail := "User not found" } ∨
      (login verify req db).1 = .error { status_code := 401, detail := "Invalid credentials" } ∨
      (login verify req db).1 = .ok { access_token := "access_token", token_type := "bearer" }) := by
  unfold login
  cases hfind : db.findSellerByUsername req.username with
  | none => simp
  | some u =>
      dsimp only
      cases hv : verify req.password u.password with
      | false => simp [hv]
      | true => simp [hv]

end ProductApp
